import Mathlib

/-!
Shallow embedding of the FAQ chatbot service (src/db.py, src/chains.py, src/app.py).

The persistence layer (db.py) is modelled as pure state transformers over a `Db`
record holding the two tables.  SQLite `AUTOINCREMENT` ids are modelled with
explicit `nextLogId` / `nextTrainId` counters; `CURRENT_TIMESTAMP` defaults are
modelled by an explicit clock argument `now : Nat` passed to each inserting
operation (SQLite timestamps have one-second resolution, so distinct inserts may
share a timestamp and the clock is only required to be non-decreasing, never
strictly increasing).  `ORDER BY <key> DESC` is modelled as a sort that is
non-increasing in the key (insertion sort); with equal keys SQLite leaves the
order unspecified, and the claims proved below use only sortedness and
permutation/membership facts about the result.

The chat orchestration layer (chains.py) keeps a module-global singleton; the
external Gemini model call is the single impure step and is modelled by an
oracle `llm` mapping the assembled context (system prompt, accumulated message
history, new question) to either an answer or an error, mirroring that
`chain.invoke` either returns a string or raises.

The HTTP facade (app.py) wraps each handler body in
`try: ... except Exception as e: raise HTTPException(500, ...)`.  Because
`fastapi.HTTPException` is a subclass of `Exception`, an `HTTPException(400, d)`
raised inside the `try` block is caught by that handler and re-raised as a 500
whose detail interpolates `str(e) = "400: " ++ d`; the embedding reproduces this
control flow literally.
-/

namespace FaqChatbot

/-! ## db.py : data model (runtime state of the two tables) -/

/-- A row of the `conversation_logs` table (db.py lines 14-22). -/
structure LogRow where
  id : Nat
  question : String
  answer : String
  timestamp : Nat
  session_id : Option String
  deriving DecidableEq, Repr

/-- A row of the `training_data` table (db.py lines 25-32). -/
structure TrainingRow where
  id : Nat
  question : String
  answer : String
  created_at : Nat
  deriving DecidableEq, Repr

/-- The database contents after `init_database` has run: both tables plus the
`AUTOINCREMENT` counters (SQLite rowids start at 1). -/
structure Db where
  logs : List LogRow
  training : List TrainingRow
  nextLogId : Nat
  nextTrainId : Nat
  deriving DecidableEq, Repr

/-- The freshly initialized database. -/
def emptyDb : Db := { logs := [], training := [], nextLogId := 1, nextTrainId := 1 }

/-- One step of insertion sort, placing `a` before the first element whose key
does not exceed it (descending order by `key`). -/
def insertByKeyDesc (key : α → Nat) (a : α) : List α → List α
  | [] => [a]
  | b :: bs => if key b ≤ key a then a :: b :: bs else b :: insertByKeyDesc key a bs

/-- Model of `ORDER BY key DESC`: sort the rows so the key is non-increasing. -/
def sortByKeyDesc (key : α → Nat) (l : List α) : List α :=
  l.foldr (insertByKeyDesc key) []

/-- db.py `log_conversation`: INSERT one row into `conversation_logs`, return
the assigned rowid (db.py lines 37-51). -/
def log_conversation (db : Db) (question answer : String) (session_id : Option String)
    (now : Nat) : Nat × Db :=
  let row : LogRow :=
    { id := db.nextLogId, question := question, answer := answer,
      timestamp := now, session_id := session_id }
  (db.nextLogId, { db with logs := db.logs ++ [row], nextLogId := db.nextLogId + 1 })

/-- db.py `get_all_logs`: SELECT all conversation logs ORDER BY timestamp DESC
(db.py lines 53-75). -/
def get_all_logs (db : Db) : List LogRow :=
  sortByKeyDesc (fun r => r.timestamp) db.logs

/-- db.py `add_training_data`: INSERT one row into `training_data`, return the
assigned rowid (db.py lines 77-91). -/
def add_training_data (db : Db) (question answer : String) (now : Nat) : Nat × Db :=
  let row : TrainingRow :=
    { id := db.nextTrainId, question := question, answer := answer, created_at := now }
  (db.nextTrainId, { db with training := db.training ++ [row], nextTrainId := db.nextTrainId + 1 })

/-- db.py `get_training_data`: SELECT all training rows ORDER BY created_at DESC
(db.py lines 93-114). -/
def get_training_data (db : Db) : List TrainingRow :=
  sortByKeyDesc (fun r => r.created_at) db.training

/-! ## db.py : `init_database` and the on-disk schema state (for idempotence) -/

/-- A table schema, reduced to its column list. -/
structure TableSchema where
  columns : List String
  deriving DecidableEq, Repr

/-- Schema of `conversation_logs` as created by db.py lines 14-22. -/
def conversation_logs_schema : TableSchema :=
  { columns := ["id", "question", "answer", "timestamp", "session_id"] }

/-- Schema of `training_data` as created by db.py lines 25-32. -/
def training_data_schema : TableSchema :=
  { columns := ["id", "question", "answer", "created_at"] }

/-- The schema-level state of the database file: each table is either absent or
present with some schema. -/
structure DbFile where
  conversation_logs : Option TableSchema
  training_data : Option TableSchema
  deriving DecidableEq, Repr

/-- `CREATE TABLE IF NOT EXISTS`: creates the table only when absent, leaves an
existing table (and its schema) untouched. -/
def createTableIfNotExists (existing : Option TableSchema) (schema : TableSchema) :
    Option TableSchema :=
  match existing with
  | some s => some s
  | none => some schema

/-- db.py `init_database` (lines 8-35): CREATE TABLE IF NOT EXISTS for both
tables. -/
def init_database (f : DbFile) : DbFile :=
  { conversation_logs := createTableIfNotExists f.conversation_logs conversation_logs_schema,
    training_data := createTableIfNotExists f.training_data training_data_schema }

/-! ## Python string helpers used by the validation code in app.py -/

/-- Whitespace as recognised by Python `str.strip()` (ASCII part: space, tab,
newline, carriage return, vertical tab, form feed). -/
def isPyWhitespace (c : Char) : Bool :=
  c == ' ' || c == '\t' || c == '\n' || c == '\r' || c == Char.ofNat 11 || c == Char.ofNat 12

/-- Python `s.strip()`: drop leading and trailing whitespace. -/
def pyStrip (s : String) : String :=
  (((s.data.dropWhile isPyWhitespace).reverse.dropWhile isPyWhitespace).reverse).asString

/-- Python truth test `not s.strip()`: the stripped string is empty. -/
def isBlank (s : String) : Bool :=
  pyStrip s == ""

/-! ## chains.py : chat orchestration -/

/-- A message of the LangChain `ConversationBufferMemory` buffer
(`HumanMessage` / `AIMessage`). -/
inductive ChatMessage where
  | human (content : String)
  | ai (content : String)
  deriving DecidableEq, Repr

/-- Result of `get_memory_summary` (chains.py lines 102-109); with
`return_messages=True` the `buffer` is the message list itself. -/
structure MemorySummary where
  total_messages : Nat
  conversation_pairs : Nat
  memory_buffer : List ChatMessage
  deriving DecidableEq, Repr

/-- Outcome of one invocation of the external Gemini model: `chain.invoke`
either returns the generated text or raises. -/
inductive LlmOutcome where
  | ok (answer : String)
  | err (message : String)
  deriving DecidableEq, Repr

/-- The external model as an oracle from the assembled context (system prompt,
replayed chat history, new question) to an outcome. -/
def Llm : Type := String → List ChatMessage → String → LlmOutcome

/-- The chatbot singleton state: API key, the system prompt computed at
construction time from the training table, and `ConversationBufferMemory`. -/
structure FAQChatbot where
  api_key : String
  system_prompt : String
  memory : List ChatMessage
  deriving DecidableEq, Repr

/-- The fixed instructional preamble of `_get_system_prompt`
(chains.py lines 62-70). -/
def base_prompt : String :=
  "You are a helpful FAQ chatbot assistant. You provide accurate, concise, and helpful answers to user questions.\n\nKey guidelines:\n1. Be helpful, friendly, and professional\n2. Provide clear and accurate information\n3. If you\x27re unsure about something, acknowledge it\n4. Keep responses concise but comprehensive\n5. Use the conversation history to provide contextual responses\n"

/-- Header of the training-data context block (chains.py line 75). -/
def training_context_header : String :=
  "\n\nHere are some example Q&A pairs for reference:\n"

/-- One loop iteration of chains.py line 77: the literal Q/A block appended for
one training row. -/
def formatTrainingPair (r : TrainingRow) : String :=
  "Q: " ++ r.question ++ "\nA: " ++ r.answer ++ "\n\n"

/-- chains.py `_get_system_prompt` (lines 60-80): the preamble, plus — when any
training data exists — the header followed by the Q/A blocks of the first 10
rows of `get_training_data()` accumulated by the `for` loop. -/
def get_system_prompt (db : Db) : String :=
  let training_data := get_training_data db
  if training_data.isEmpty then
    base_prompt
  else
    base_prompt ++
      (training_data.take 10).foldl (fun acc r => acc ++ formatTrainingPair r)
        training_context_header

/-- The process environment seen by chains.py (`os.getenv("GOOGLE_API_KEY")`). -/
structure Env where
  google_api_key : Option String
  deriving DecidableEq, Repr

/-- chains.py `FAQChatbot.__init__` (lines 16-39): fails when the API key is
missing, otherwise builds the singleton with the system prompt computed from
the current training table and an empty memory. -/
def FAQChatbot.init (env : Env) (db : Db) : Except String FAQChatbot :=
  match env.google_api_key with
  | none => Except.error ("GOOGLE_API_KEY not found in environment variables")
  | some k =>
      Except.ok { api_key := k, system_prompt := get_system_prompt db, memory := [] }

/-- The fixed-format apologetic message of chains.py line 96, parameterised by
`str(e)`. -/
def error_apology (e : String) : String :=
  "I apologize, but I encountered an error while processing your question: " ++ e

/-- chains.py `FAQChatbot.ask` (lines 82-96): invoke the chain; on success save
the (question, answer) pair to memory and return the response; on any exception
return the apologetic message and leave memory untouched.  The `session_id`
parameter is accepted but never used in the body. -/
def FAQChatbot.ask (llm : Llm) (bot : FAQChatbot) (question : String)
    (session_id : Option String) : String × FAQChatbot :=
  match llm bot.system_prompt bot.memory question with
  | LlmOutcome.ok response =>
      (response,
       { bot with memory := bot.memory ++ [ChatMessage.human question, ChatMessage.ai response] })
  | LlmOutcome.err e => (error_apology e, bot)

/-- chains.py `FAQChatbot.clear_memory` (lines 98-100). -/
def FAQChatbot.clear_memory (bot : FAQChatbot) : FAQChatbot :=
  { bot with memory := [] }

/-- chains.py `FAQChatbot.get_memory_summary` (lines 102-109). -/
def FAQChatbot.get_memory_summary (bot : FAQChatbot) : MemorySummary :=
  { total_messages := bot.memory.length,
    conversation_pairs := bot.memory.length / 2,
    memory_buffer := bot.memory }

/-- The whole-process state: the module-global chatbot singleton of chains.py
line 112 plus the database contents. -/
structure AppState where
  chatbot : Option FAQChatbot
  db : Db
  deriving DecidableEq, Repr

/-- chains.py `get_chatbot` (lines 114-119): return the singleton, creating it
lazily (which can fail when the API key is missing). -/
def get_chatbot (env : Env) (st : AppState) : Except String (FAQChatbot × AppState) :=
  match st.chatbot with
  | some bot => Except.ok (bot, st)
  | none =>
      match FAQChatbot.init env st.db with
      | Except.error e => Except.error e
      | Except.ok bot => Except.ok (bot, { st with chatbot := some bot })

/-- chains.py `reset_chatbot` (lines 121-126): clear the memory of the current
instance (a mutation of the object about to be discarded) and drop the
singleton; the state-level effect is that the singleton becomes absent. -/
def reset_chatbot (st : AppState) : AppState :=
  match st.chatbot with
  | some _ => { st with chatbot := none }
  | none => { st with chatbot := none }

/-! ## app.py : HTTP facade -/

/-- Request body of POST /ask. -/
structure QuestionRequest where
  question : String
  session_id : Option String
  deriving DecidableEq, Repr

/-- Response body of POST /ask. -/
structure QuestionResponse where
  answer : String
  question : String
  timestamp : Nat
  session_id : Option String
  deriving DecidableEq, Repr

/-- Outcome of the /ask handler: a 200 body or an HTTPException. -/
inductive AskResult where
  | ok (resp : QuestionResponse)
  | httpError (status : Nat) (detail : String)
  deriving DecidableEq, Repr

/-- app.py `ask_question` (lines 73-98).  The blank-question branch raises
`HTTPException(400, "Question cannot be empty")` inside the `try` block; the
`except Exception` clause catches it (HTTPException subclasses Exception) and
re-raises `HTTPException(500, "Internal server error: " + str(e))` with
`str(e) = "400: Question cannot be empty"`.  Likewise any error from
`get_chatbot` surfaces as a 500. -/
def ask_question (env : Env) (llm : Llm) (st : AppState) (req : QuestionRequest)
    (now : Nat) : AskResult × AppState :=
  if isBlank req.question then
    (AskResult.httpError 500 ("Internal server error: 400: Question cannot be empty"), st)
  else
    match get_chatbot env st with
    | Except.error e => (AskResult.httpError 500 ("Internal server error: " ++ e), st)
    | Except.ok (bot, st1) =>
        let asked := FAQChatbot.ask llm bot req.question req.session_id
        let st2 : AppState := { st1 with chatbot := some asked.2 }
        let logged := log_conversation st2.db req.question asked.1 req.session_id now
        (AskResult.ok
          { answer := asked.1, question := req.question,
            timestamp := now, session_id := req.session_id },
         { st2 with db := logged.2 })

/-- Request body of POST /train. -/
structure TrainingRequest where
  question : String
  answer : String
  deriving DecidableEq, Repr

/-- Response body of POST /train. -/
structure TrainingResponse where
  id : Nat
  message : String
  question : String
  answer : String
  deriving DecidableEq, Repr

/-- Outcome of the /train handler. -/
inductive TrainResult where
  | ok (resp : TrainingResponse)
  | httpError (status : Nat) (detail : String)
  deriving DecidableEq, Repr

/-- app.py `add_training` (lines 122-146).  As in /ask, the blank-field
`HTTPException(400, "Both question and answer are required")` is caught by the
blanket `except Exception` and re-raised as a 500 whose detail embeds
`str(e) = "400: Both question and answer are required"`.  On the valid path the
row is inserted and `reset_chatbot()` discards the singleton. -/
def add_training (st : AppState) (req : TrainingRequest) (now : Nat) :
    TrainResult × AppState :=
  if isBlank req.question || isBlank req.answer then
    (TrainResult.httpError 500
      ("Failed to add training data: 400: Both question and answer are required"), st)
  else
    let added := add_training_data st.db req.question req.answer now
    let st1 := reset_chatbot { st with db := added.2 }
    (TrainResult.ok
      { id := added.1, message := "Training data added successfully",
        question := req.question, answer := req.answer },
     st1)

/-- app.py `get_logs` (lines 101-119): returns `get_all_logs()` row by row. -/
def get_logs (db : Db) : List LogRow :=
  get_all_logs db

/-- app.py `get_training` (lines 149-157): returns `get_training_data()`. -/
def get_training (db : Db) : List TrainingRow :=
  get_training_data db

/-- app.py `reset_conversation` (lines 160-169). -/
def reset_conversation (st : AppState) : String × AppState :=
  ("Conversation memory reset successfully", reset_chatbot st)

/-- Response body of GET /status. -/
structure StatusResponse where
  status : String
  memory_info : MemorySummary
  timestamp : Nat
  deriving DecidableEq, Repr

/-- Outcome of the /status handler. -/
inductive StatusResult where
  | ok (resp : StatusResponse)
  | httpError (status : Nat) (detail : String)
  deriving DecidableEq, Repr

/-- app.py `get_status` (lines 172-187): obtain (possibly lazily create) the
singleton and report its memory summary; a creation failure becomes a 500. -/
def get_status (env : Env) (st : AppState) (now : Nat) : StatusResult × AppState :=
  match get_chatbot env st with
  | Except.error e => (StatusResult.httpError 500 ("Failed to get status: " ++ e), st)
  | Except.ok (bot, st1) =>
      (StatusResult.ok
        { status := "active", memory_info := bot.get_memory_summary, timestamp := now },
       st1)

/-! ## Ordering predicates and helper lemmas about the DESC sort -/

/-- The list is non-increasing in `key` (newest first, ties allowed). -/
def sortedDescBy (key : α → Nat) : List α → Bool
  | [] => true
  | [_] => true
  | a :: b :: rest => (decide (key b ≤ key a)) && sortedDescBy key (b :: rest)

/-- The list is strictly decreasing in `key` (newest first, no ties). -/
def strictDescBy (key : α → Nat) : List α → Bool
  | [] => true
  | [_] => true
  | a :: b :: rest => (decide (key b < key a)) && strictDescBy key (b :: rest)

theorem mem_insertByKeyDesc (key : α → Nat) (a x : α) (l : List α) :
    x ∈ insertByKeyDesc key a l ↔ x = a ∨ x ∈ l := by
  induction l with
  | nil => simp [insertByKeyDesc]
  | cons b bs ih =>
    simp only [insertByKeyDesc]
    split
    · simp [List.mem_cons]
    · simp only [List.mem_cons, ih]
      tauto

theorem mem_sortByKeyDesc (key : α → Nat) (x : α) (l : List α) :
    x ∈ sortByKeyDesc key l ↔ x ∈ l := by
  induction l with
  | nil => simp [sortByKeyDesc]
  | cons b bs ih =>
    simp only [sortByKeyDesc, List.foldr_cons] at ih ⊢
    rw [mem_insertByKeyDesc, ih, List.mem_cons]

theorem sortedDescBy_insertByKeyDesc (key : α → Nat) (a : α) (l : List α)
    (h : sortedDescBy key l = true) :
    sortedDescBy key (insertByKeyDesc key a l) = true := by
  induction l with
  | nil => simp [insertByKeyDesc, sortedDescBy]
  | cons b bs ih =>
    by_cases hba : key b ≤ key a
    · simpa [insertByKeyDesc, hba, sortedDescBy] using h
    · cases bs with
      | nil =>
        have hab : key a ≤ key b := by omega
        simp [insertByKeyDesc, if_neg hba, sortedDescBy, hab]
      | cons c cs =>
        simp only [sortedDescBy, Bool.and_eq_true, decide_eq_true_eq] at h
        have ih' := ih h.2
        simp only [insertByKeyDesc, if_neg hba]
        by_cases hca : key c ≤ key a
        · simp only [insertByKeyDesc, if_pos hca] at ih' ⊢
          simp only [sortedDescBy, Bool.and_eq_true, decide_eq_true_eq] at ih' ⊢
          exact ⟨by omega, ih'⟩
        · simp only [insertByKeyDesc, if_neg hca] at ih' ⊢
          simp only [sortedDescBy, Bool.and_eq_true, decide_eq_true_eq] at ih' ⊢
          exact ⟨h.1, ih'⟩

theorem sortedDescBy_sortByKeyDesc (key : α → Nat) (l : List α) :
    sortedDescBy key (sortByKeyDesc key l) = true := by
  induction l with
  | nil => rfl
  | cons a as ih =>
    simpa only [sortByKeyDesc, List.foldr_cons] using
      sortedDescBy_insertByKeyDesc key a _ ih

/-- After `get_chatbot` succeeds, the returned state has the same database and
holds the returned bot as the singleton. -/
theorem get_chatbot_ok_state (env : Env) (st : AppState) (bot : FAQChatbot) (st1 : AppState)
    (h : get_chatbot env st = Except.ok (bot, st1)) :
    st1.db = st.db ∧ st1.chatbot = some bot := by
  unfold get_chatbot at h
  cases hc : st.chatbot with
  | some b =>
    rw [hc] at h
    simp only [Except.ok.injEq, Prod.mk.injEq] at h
    obtain ⟨hb, hst⟩ := h
    subst hb; subst hst
    exact ⟨rfl, hc⟩
  | none =>
    rw [hc] at h
    unfold FAQChatbot.init at h
    cases hk : env.google_api_key with
    | none => rw [hk] at h; cases h
    | some k =>
      rw [hk] at h
      simp only [Except.ok.injEq, Prod.mk.injEq] at h
      obtain ⟨hb, hst⟩ := h
      subst hb; subst hst
      exact ⟨rfl, rfl⟩

/-- `reset_chatbot` only drops the singleton; the database field is untouched. -/
theorem reset_chatbot_eq (st : AppState) :
    reset_chatbot st = { chatbot := none, db := st.db } := by
  unfold reset_chatbot
  cases st.chatbot <;> rfl

/-! ## Claim C9 : idempotence of init_database -/

/-- C9: `init_database` is idempotent: a second call is observationally equal to
the first, and from any file state it leaves an already-present table schema
unchanged (an absent table is created with the fixed schema). -/
theorem c9_init_database_idempotent (f : DbFile) :
    init_database (init_database f) = init_database f ∧
    (init_database f).conversation_logs =
      some (f.conversation_logs.getD conversation_logs_schema) ∧
    (init_database f).training_data =
      some (f.training_data.getD training_data_schema) := by
  cases f with
  | mk cl td =>
    cases cl <;> cases td <;>
      simp [init_database, createTableIfNotExists, Option.getD]

/-! ## Claim C5 : ordering of /logs and /training listings -/

/-- A reachable database state in which two conversation rows were inserted
within the same clock second (SQLite CURRENT_TIMESTAMP has one-second
resolution), so both rows carry timestamp 5. -/
def c5Db : Db :=
  (log_conversation (log_conversation emptyDb ("q1") ("a1") none 5).2 ("q2") ("a2") none 5).2

/-- A reachable database state with two training rows sharing created_at 5. -/
def c5TrainDb : Db :=
  (add_training_data (add_training_data emptyDb ("q1") ("a1") 5).2 ("q2") ("a2") 5).2

/-- C5, counterexample: the /logs listing (and likewise the /training listing)
is NOT strictly ordered by its timestamp key on a database state holding two
rows with equal timestamps, so the claim as stated fails. -/
theorem c5_counterexample_ties_break_strictness :
    strictDescBy (fun r => r.timestamp) (get_logs c5Db) = false ∧
    strictDescBy (fun r => r.created_at) (get_training c5TrainDb) = false := by
  constructor <;> decide

/-- C5, amended: for every database state the /logs listing is ordered
newest-first non-strictly by timestamp (each timestamp is greater than or equal
to the next), and the /training listing likewise by created_at. -/
theorem c5_listings_sorted_newest_first (db : Db) :
    sortedDescBy (fun r => r.timestamp) (get_logs db) = true ∧
    sortedDescBy (fun r => r.created_at) (get_training db) = true :=
  ⟨sortedDescBy_sortByKeyDesc _ _, sortedDescBy_sortByKeyDesc _ _⟩

/-! ## The successful /ask path, characterised once and shared by C2, C3, C10 -/

/-- On a non-blank question with an available chatbot, `ask_question` returns a
200 body carrying the model answer verbatim, stores the updated singleton, and
appends exactly one conversation-log row whose question and answer equal the
response body fields. -/
theorem ask_question_ok_spec (env : Env) (llm : Llm) (st : AppState)
    (req : QuestionRequest) (now : Nat) (bot : FAQChatbot) (st1 : AppState)
    (a : String) (bot1 : FAQChatbot)
    (hq : isBlank req.question = false)
    (hbot : get_chatbot env st = Except.ok (bot, st1))
    (hask : FAQChatbot.ask llm bot req.question req.session_id = (a, bot1)) :
    ask_question env llm st req now =
      (AskResult.ok
        { answer := a, question := req.question, timestamp := now,
          session_id := req.session_id },
       { chatbot := some bot1,
         db := { logs := st.db.logs ++
                   [{ id := st.db.nextLogId, question := req.question, answer := a,
                      timestamp := now, session_id := req.session_id }],
                 training := st.db.training,
                 nextLogId := st.db.nextLogId + 1,
                 nextTrainId := st.db.nextTrainId } }) := by
  have hdb := (get_chatbot_ok_state env st bot st1 hbot).1
  unfold ask_question
  rw [hq, hbot]
  simp only [Bool.false_eq_true, if_false, hask, log_conversation, hdb]

/-! ## Concrete fixtures used by the closed theorems below -/

/-- An environment carrying an API key. -/
def exEnv : Env := { google_api_key := some ("test-key") }

/-- A chatbot singleton with empty memory. -/
def exBot : FAQChatbot :=
  { api_key := "test-key", system_prompt := get_system_prompt emptyDb, memory := [] }

/-- App state whose singleton is `exBot` over a fresh database. -/
def exState : AppState := { chatbot := some exBot, db := emptyDb }

/-- A model oracle that always answers. -/
def exLlmOk : Llm := fun _ _ _ => LlmOutcome.ok ("42")

/-- A model oracle that always raises. -/
def exLlmErr : Llm := fun _ _ _ => LlmOutcome.err ("boom")

/-! ## Claim C1 : blank-input validation (code bug: the 400 becomes a 500) -/

/-- C1: at the concrete blank inputs, both handlers leave the state (hence both
tables) unchanged, but the response is a 500, not the 400 the claim states: the
`HTTPException(400, ...)` raised inside the `try` block is caught by the
handler's own `except Exception` clause and re-raised as
`HTTPException(500, "... : 400: <detail>")`. -/
theorem c1_blank_input_gets_500_and_no_row :
    ask_question exEnv exLlmOk exState { question := "   ", session_id := none } 0 =
      (AskResult.httpError 500 ("Internal server error: 400: Question cannot be empty"),
       exState) ∧
    add_training exState { question := "q", answer := " " } 0 =
      (TrainResult.httpError 500
        ("Failed to add training data: 400: Both question and answer are required"),
       exState) := by
  constructor <;> rfl

/-! ## Claim C3 : every successful /ask inserts exactly one matching log row -/

/-- C3: a successful /ask call returns a 200 body and appends exactly one new
conversation-log row, and that row's question and answer fields equal the
question and answer fields of the response body. -/
theorem c3_ask_logs_exactly_one_matching_row (env : Env) (llm : Llm) (st : AppState)
    (req : QuestionRequest) (now : Nat) (bot : FAQChatbot) (st1 : AppState)
    (a : String) (bot1 : FAQChatbot)
    (hq : isBlank req.question = false)
    (hbot : get_chatbot env st = Except.ok (bot, st1))
    (hask : FAQChatbot.ask llm bot req.question req.session_id = (a, bot1)) :
    (ask_question env llm st req now).1 =
      AskResult.ok
        { answer := a, question := req.question, timestamp := now,
          session_id := req.session_id } ∧
    ((ask_question env llm st req now).2).db.logs =
      st.db.logs ++
        [{ id := st.db.nextLogId, question := req.question, answer := a,
           timestamp := now, session_id := req.session_id }] := by
  rw [ask_question_ok_spec env llm st req now bot st1 a bot1 hq hbot hask]
  exact ⟨rfl, rfl⟩

/-- Closed witness for C3 at a concrete input. -/
theorem c3_witness :
    isBlank ("hello") = false ∧
    FAQChatbot.ask exLlmOk exBot ("hello") none =
      (("42"),
       { api_key := "test-key", system_prompt := get_system_prompt emptyDb,
         memory := [ChatMessage.human ("hello"), ChatMessage.ai ("42")] }) ∧
    ((ask_question exEnv exLlmOk exState { question := "hello", session_id := none } 7).1 =
      AskResult.ok { answer := "42", question := "hello", timestamp := 7, session_id := none } ∧
     ((ask_question exEnv exLlmOk exState { question := "hello", session_id := none } 7).2).db.logs =
      emptyDb.logs ++
        [{ id := 1, question := "hello", answer := "42", timestamp := 7, session_id := none }]) := by
  refine ⟨by decide, rfl, ?_⟩
  exact c3_ask_logs_exactly_one_matching_row exEnv exLlmOk exState
    { question := "hello", session_id := none } 7 exBot exState ("42")
    { api_key := "test-key", system_prompt := get_system_prompt emptyDb,
      memory := [ChatMessage.human ("hello"), ChatMessage.ai ("42")] }
    (by decide) rfl rfl

/-! ## Claim C2 : model failures are swallowed, apologised, and persisted -/

/-- C2: when the model call raises, `FAQChatbot.ask` does not re-raise: it
returns the fixed-format apologetic message embedding the error string, and the
/ask handler persists that message to the conversation log as the answer of the
exchange (the response body carries it as well). -/
theorem c2_model_error_swallowed_and_persisted (env : Env) (llm : Llm) (st : AppState)
    (req : QuestionRequest) (now : Nat) (bot : FAQChatbot) (st1 : AppState) (e : String)
    (hq : isBlank req.question = false)
    (hbot : get_chatbot env st = Except.ok (bot, st1))
    (hllm : llm bot.system_prompt bot.memory req.question = LlmOutcome.err e) :
    FAQChatbot.ask llm bot req.question req.session_id = (error_apology e, bot) ∧
    ask_question env llm st req now =
      (AskResult.ok
        { answer := error_apology e, question := req.question, timestamp := now,
          session_id := req.session_id },
       { chatbot := some bot,
         db := { logs := st.db.logs ++
                   [{ id := st.db.nextLogId, question := req.question,
                      answer := error_apology e, timestamp := now,
                      session_id := req.session_id }],
                 training := st.db.training,
                 nextLogId := st.db.nextLogId + 1,
                 nextTrainId := st.db.nextTrainId } }) := by
  have hask : FAQChatbot.ask llm bot req.question req.session_id = (error_apology e, bot) := by
    unfold FAQChatbot.ask
    rw [hllm]
  exact ⟨hask, ask_question_ok_spec env llm st req now bot st1 (error_apology e) bot
    hq hbot hask⟩

/-- Closed witness for C2 at a concrete input. -/
theorem c2_witness :
    isBlank ("hi") = false ∧
    exLlmErr exBot.system_prompt exBot.memory ("hi") = LlmOutcome.err ("boom") ∧
    (FAQChatbot.ask exLlmErr exBot ("hi") none = (error_apology ("boom"), exBot) ∧
     ask_question exEnv exLlmErr exState { question := "hi", session_id := none } 7 =
      (AskResult.ok
        { answer := error_apology ("boom"), question := "hi", timestamp := 7,
          session_id := none },
       { chatbot := some exBot,
         db := { logs := emptyDb.logs ++
                   [{ id := 1, question := "hi", answer := error_apology ("boom"),
                      timestamp := 7, session_id := none }],
                 training := emptyDb.training,
                 nextLogId := 2, nextTrainId := 1 } })) := by
  refine ⟨by decide, rfl, ?_⟩
  exact c2_model_error_swallowed_and_persisted exEnv exLlmErr exState
    { question := "hi", session_id := none } 7 exBot exState ("boom") (by decide) rfl rfl

/-! ## Claim C10 : a failed model call leaves ConversationMemory untouched -/

/-- C10: when the model call raises, the chatbot returned to the singleton slot
is exactly the one from before the call — the failed exchange is not appended to
memory — even though the apologetic answer is still persisted to the
conversation log by the handler. -/
theorem c10_model_error_preserves_memory (env : Env) (llm : Llm) (st : AppState)
    (req : QuestionRequest) (now : Nat) (bot : FAQChatbot) (st1 : AppState) (e : String)
    (hq : isBlank req.question = false)
    (hbot : get_chatbot env st = Except.ok (bot, st1))
    (hllm : llm bot.system_prompt bot.memory req.question = LlmOutcome.err e) :
    (FAQChatbot.ask llm bot req.question req.session_id).2 = bot ∧
    (FAQChatbot.ask llm bot req.question req.session_id).2.memory = bot.memory ∧
    ((ask_question env llm st req now).2).chatbot = some bot ∧
    ((ask_question env llm st req now).2).db.logs =
      st.db.logs ++
        [{ id := st.db.nextLogId, question := req.question,
           answer := error_apology e, timestamp := now,
           session_id := req.session_id }] := by
  have hask : FAQChatbot.ask llm bot req.question req.session_id = (error_apology e, bot) := by
    unfold FAQChatbot.ask
    rw [hllm]
  rw [ask_question_ok_spec env llm st req now bot st1 (error_apology e) bot hq hbot hask, hask]
  exact ⟨rfl, rfl, rfl, rfl⟩

/-- Closed witness for C10 at a concrete input. -/
theorem c10_witness :
    isBlank ("hi") = false ∧
    exLlmErr exBot.system_prompt exBot.memory ("hi") = LlmOutcome.err ("boom") ∧
    ((FAQChatbot.ask exLlmErr exBot ("hi") none).2 = exBot ∧
     (FAQChatbot.ask exLlmErr exBot ("hi") none).2.memory = exBot.memory ∧
     ((ask_question exEnv exLlmErr exState { question := "hi", session_id := none } 9).2).chatbot =
       some exBot ∧
     ((ask_question exEnv exLlmErr exState { question := "hi", session_id := none } 9).2).db.logs =
       emptyDb.logs ++
         [{ id := 1, question := "hi", answer := error_apology ("boom"),
            timestamp := 9, session_id := none }]) := by
  refine ⟨by decide, rfl, ?_⟩
  exact c10_model_error_preserves_memory exEnv exLlmErr exState
    { question := "hi", session_id := none } 9 exBot exState ("boom") (by decide) rfl rfl

/-! ## Claim C7 : session_id is inert except for the stored field -/

/-- HTTP status observed from an /ask outcome. -/
def askStatusOf : AskResult → Nat
  | AskResult.ok _ => 200
  | AskResult.httpError s _ => s

/-- Answer text observed from an /ask outcome (none on an error response). -/
def askAnswerOf : AskResult → Option String
  | AskResult.ok r => some r.answer
  | AskResult.httpError _ _ => none

/-- A log row with its session_id field blanked, for comparing tables up to
that one field. -/
def eraseSessionId (r : LogRow) : LogRow :=
  { r with session_id := none }

/-- C7: two /ask runs from the same chatbot and database state that differ only
in session_id produce the same status and the same answer, leave the singleton
(hence ConversationMemory) in the same state, and produce conversation-log
tables that agree on every field except the session_id of the stored row; the
training table and the id counter are also identical. -/
theorem c7_session_id_only_affects_stored_field (env : Env) (llm : Llm) (st : AppState)
    (q : String) (s1 s2 : Option String) (now : Nat) :
    askStatusOf (ask_question env llm st { question := q, session_id := s1 } now).1 =
      askStatusOf (ask_question env llm st { question := q, session_id := s2 } now).1 ∧
    askAnswerOf (ask_question env llm st { question := q, session_id := s1 } now).1 =
      askAnswerOf (ask_question env llm st { question := q, session_id := s2 } now).1 ∧
    ((ask_question env llm st { question := q, session_id := s1 } now).2).chatbot =
      ((ask_question env llm st { question := q, session_id := s2 } now).2).chatbot ∧
    ((ask_question env llm st { question := q, session_id := s1 } now).2).db.logs.map eraseSessionId =
      ((ask_question env llm st { question := q, session_id := s2 } now).2).db.logs.map eraseSessionId ∧
    ((ask_question env llm st { question := q, session_id := s1 } now).2).db.training =
      ((ask_question env llm st { question := q, session_id := s2 } now).2).db.training ∧
    ((ask_question env llm st { question := q, session_id := s1 } now).2).db.nextLogId =
      ((ask_question env llm st { question := q, session_id := s2 } now).2).db.nextLogId := by
  unfold ask_question
  by_cases hb : isBlank q
  · simp [hb]
  · rw [Bool.not_eq_true] at hb
    simp only [hb, Bool.false_eq_true, if_false]
    cases hgc : get_chatbot env st with
    | error e => simp
    | ok p =>
      obtain ⟨bot, st1⟩ := p
      have hsame : FAQChatbot.ask llm bot q s1 = FAQChatbot.ask llm bot q s2 := rfl
      simp [hsame, log_conversation, askStatusOf, askAnswerOf, eraseSessionId]

/-! ## Claim C6 : /reset then /status reports zero messages -/

/-- C6: after a /reset, the next /status call (which lazily rebuilds the
singleton, given the API key is configured) reports a memory summary with zero
accumulated messages, zero pairs and an empty buffer — regardless of how much
memory had accumulated before the reset. -/
theorem c6_status_after_reset_reports_zero (env : Env) (st : AppState) (now : Nat)
    (k : String) (hk : env.google_api_key = some k) :
    (get_status env (reset_conversation st).2 now).1 =
      StatusResult.ok
        { status := "active",
          memory_info :=
            { total_messages := 0, conversation_pairs := 0, memory_buffer := [] },
          timestamp := now } := by
  show (get_status env (reset_chatbot st) now).1 = _
  rw [reset_chatbot_eq]
  unfold get_status get_chatbot FAQChatbot.init
  rw [hk]
  simp [FAQChatbot.get_memory_summary]

/-- A singleton with accumulated memory, to exercise C6 and C8 concretely. -/
def exBotBusy : FAQChatbot :=
  { api_key := "test-key", system_prompt := base_prompt,
    memory := [ChatMessage.human ("hi"), ChatMessage.ai ("hello there")] }

/-- App state whose singleton holds two accumulated messages. -/
def exStateBusy : AppState := { chatbot := some exBotBusy, db := c5Db }

/-- Closed witness for C6: resetting a state with two accumulated messages and
asking for status yields a zero summary. -/
theorem c6_witness :
    exEnv.google_api_key = some ("test-key") ∧
    (get_status exEnv (reset_conversation exStateBusy).2 3).1 =
      StatusResult.ok
        { status := "active",
          memory_info :=
            { total_messages := 0, conversation_pairs := 0, memory_buffer := [] },
          timestamp := 3 } :=
  ⟨rfl, c6_status_after_reset_reports_zero exEnv exStateBusy 3 ("test-key") rfl⟩

/-! ## Claim C8 : resets never touch the persisted tables nor replay logs -/

/-- C8: `reset_chatbot` — invoked directly, via the /reset handler, or as part
of a /train submission — leaves the persisted database untouched (for /train,
the conversation-log table in particular is unchanged by the whole handler),
and the singleton lazily rebuilt after a reset always starts with an empty
memory, whatever the persisted logs contain: logs are never replayed into
ConversationMemory. -/
theorem c8_reset_preserves_tables_and_never_replays (st : AppState) (k : String)
    (req : TrainingRequest) (now : Nat) :
    (reset_chatbot st).db = st.db ∧
    (reset_conversation st).2.db = st.db ∧
    (add_training st req now).2.db.logs = st.db.logs ∧
    get_chatbot { google_api_key := some k } (reset_chatbot st) =
      Except.ok
        ({ api_key := k, system_prompt := get_system_prompt st.db, memory := [] },
         { chatbot :=
             some { api_key := k, system_prompt := get_system_prompt st.db, memory := [] },
           db := st.db }) := by
  refine ⟨?_, ?_, ?_, ?_⟩
  · rw [reset_chatbot_eq]
  · show (reset_chatbot st).db = st.db
    rw [reset_chatbot_eq]
  · unfold add_training
    by_cases hb : (isBlank req.question || isBlank req.answer) = true
    · simp [hb]
    · rw [Bool.not_eq_true] at hb
      simp [hb, add_training_data, reset_chatbot_eq]
  · rw [reset_chatbot_eq]
    rfl

/-! ## Claim C4 : accepted training pairs reach the listing and the prompt -/

/-- Accumulating Q/A blocks with `foldl` only ever extends the accumulator on
the right. -/
theorem foldl_formatPair_extend (l : List TrainingRow) :
    ∀ s : String, ∃ post,
      l.foldl (fun acc r => acc ++ formatTrainingPair r) s = s ++ post := by
  induction l with
  | nil =>
    intro s
    exact ⟨"", (String.append_empty s).symm⟩
  | cons b bs ih =>
    intro s
    obtain ⟨post, hp⟩ := ih (s ++ formatTrainingPair b)
    exact ⟨formatTrainingPair b ++ post, by
      rw [List.foldl_cons, hp, String.append_assoc]⟩

/-- Every row fed to the accumulation loop contributes its literal Q/A block as
a contiguous substring of the result. -/
theorem foldl_formatPair_mem_decomp (r : TrainingRow) (l : List TrainingRow) :
    ∀ s : String, r ∈ l → ∃ pre post,
      l.foldl (fun acc r => acc ++ formatTrainingPair r) s =
        pre ++ formatTrainingPair r ++ post := by
  induction l with
  | nil =>
    intro s h
    cases h
  | cons b bs ih =>
    intro s h
    cases h with
    | head =>
      obtain ⟨post, hp⟩ := foldl_formatPair_extend bs (s ++ formatTrainingPair r)
      exact ⟨s, post, by rw [List.foldl_cons, hp]⟩
    | tail _ hbs =>
      exact ih (s ++ formatTrainingPair b) hbs

/-- C4: a /train submission with non-blank fields is accepted with a 200 whose
body echoes the pair, the new row is returned by the /training listing, and —
for every database state — any row among the first 10 of the
newest-first training listing appears in the assembled system prompt as its
literal Q/A block. -/
theorem c4_training_pair_in_listing_and_prompt (st : AppState) (req : TrainingRequest)
    (now : Nat)
    (hq : isBlank req.question = false) (ha : isBlank req.answer = false) :
    (add_training st req now).1 =
      TrainResult.ok
        { id := st.db.nextTrainId, message := "Training data added successfully",
          question := req.question, answer := req.answer } ∧
    ({ id := st.db.nextTrainId, question := req.question, answer := req.answer,
       created_at := now } : TrainingRow) ∈ get_training (add_training st req now).2.db ∧
    ∀ (db : Db) (r : TrainingRow), r ∈ (get_training_data db).take 10 →
      ∃ pre post, get_system_prompt db = pre ++ formatTrainingPair r ++ post := by
  have hval : (isBlank req.question || isBlank req.answer) = false := by
    rw [hq, ha]
    rfl
  refine ⟨?_, ?_, ?_⟩
  · unfold add_training
    rw [hval]
    rfl
  · unfold add_training
    rw [hval]
    simp only [Bool.false_eq_true, if_false, add_training_data, reset_chatbot_eq]
    unfold get_training get_training_data
    rw [mem_sortByKeyDesc]
    simp
  · intro db r hr
    have hmem : r ∈ get_training_data db := by
      have := List.take_subset 10 (get_training_data db)
      exact this hr
    have hne : (get_training_data db).isEmpty = false := by
      cases hl : get_training_data db with
      | nil => rw [hl] at hmem; cases hmem
      | cons x xs => rfl
    have hr10 : r ∈ (get_training_data db).take 10 := hr
    unfold get_system_prompt
    simp only [hne, Bool.false_eq_true, if_false]
    obtain ⟨pre, post, hp⟩ :=
      foldl_formatPair_mem_decomp r ((get_training_data db).take 10)
        training_context_header hr10
    refine ⟨base_prompt ++ pre, post, ?_⟩
    rw [hp, String.append_assoc, String.append_assoc, String.append_assoc]

/-- The valid training request of the scenario in the spec. -/
def exTrainReq : TrainingRequest :=
  { question := "What are your hours?", answer := "9-5 Mon-Fri" }

/-- Fresh app state with no singleton. -/
def exStateFresh : AppState := { chatbot := none, db := emptyDb }

/-- The database produced by submitting `exTrainReq` to a fresh state. -/
def c4Db : Db := (add_training exStateFresh exTrainReq 1).2.db

/-- The training row created by that submission. -/
def c4Row : TrainingRow :=
  { id := 1, question := "What are your hours?", answer := "9-5 Mon-Fri", created_at := 1 }

/-- Closed witness for C4: the scenario pair is accepted, listed, is among the
first 10 of the listing, and its literal Q/A block occurs in the assembled
system prompt. -/
theorem c4_witness :
    isBlank exTrainReq.question = false ∧
    isBlank exTrainReq.answer = false ∧
    (add_training exStateFresh exTrainReq 1).1 =
      TrainResult.ok
        { id := 1, message := "Training data added successfully",
          question := exTrainReq.question, answer := exTrainReq.answer } ∧
    c4Row ∈ get_training c4Db ∧
    c4Row ∈ (get_training_data c4Db).take 10 ∧
    ∃ pre post, get_system_prompt c4Db = pre ++ formatTrainingPair c4Row ++ post := by
  refine ⟨by decide, by decide, ?_, ?_, by decide, ?_⟩
  · exact (c4_training_pair_in_listing_and_prompt exStateFresh exTrainReq 1
      (by decide) (by decide)).1
  · exact (c4_training_pair_in_listing_and_prompt exStateFresh exTrainReq 1
      (by decide) (by decide)).2.1
  · exact (c4_training_pair_in_listing_and_prompt exStateFresh exTrainReq 1
      (by decide) (by decide)).2.2 c4Db c4Row (by decide)

end FaqChatbot
